import Mathlib

/-!
Runtime loader for the ffmpeg codec library: a shallow embedding of

* `dev-packages/electron/native/src/ffmpeg.h` (the data model),
* `dev-packages/electron/native/src/linux-ffmpeg.c` and
  `dev-packages/electron/native/src/win-ffmpeg.c` (the two platform loaders),
* `packages/electron/native/src/ffmpeg.c` (the `codecs` N-API entry point),
* `dev-packages/electron/native/src/electron-ffmpeg-codecs.c` (the standalone
  JSON lister).

Pointers are `Option Nat`: `none` is `NULL`, `some a` is the non-null pointer
with address `a`.  An error string is a `CStr`: a pointer to a string literal,
or a pointer to a message buffer of the dynamic loader, whose text can be read
only while the buffer is allocated.  The operating system is split into an
immutable `Host` (what the file system and the loaded code do) and a mutable
`OsState` (the outstanding library references, the `dlerror` state and a log
of the loader calls made so far).  A C function that can crash returns
`Except Fault _`.
-/

namespace Ffmpeg

/-! ## Data model (`ffmpeg.h`) -/

/-- The `struct AVCodec` of `ffmpeg.h`; the two enums are C `int`s. -/
structure AVCodec where
  name : String
  long_name : String
  type : Int
  id : Int
deriving DecidableEq, Repr

/-- The `struct AVCodecDescriptor` of `ffmpeg.h`. -/
structure AVCodecDescriptor where
  id : Int
  type : Int
  name : String
  long_name : String
deriving DecidableEq, Repr

/-- The `struct FFMPEG_Library` of `ffmpeg.h`: the OS handle and the two
resolved function pointers. -/
structure FFMPEG_Library where
  handle : Option Nat
  avcodec_descriptor_next : Option Nat
  avcodec_find_decoder : Option Nat
deriving DecidableEq, Repr

/-- The macro `NULL_FFMPEG_LIBRARY`: `(struct FFMPEG_Library) { NULL, NULL, NULL }`. -/
def NULL_FFMPEG_LIBRARY : FFMPEG_Library :=
  { handle := none, avcodec_descriptor_next := none, avcodec_find_decoder := none }

/-! ## The operating system -/

/-- Why a run of the C program has no result. -/
inductive Fault where
  /-- the call goes through a null function pointer -/
  | nullCall
  /-- a null pointer is dereferenced -/
  | nullDeref
  /-- `dlclose` is given a handle that is not open and dereferences it -/
  | invalidHandle
  /-- a string is read through a pointer to a buffer that was freed -/
  | freedRead
  /-- the loop was cut off by the step bound of the model -/
  | outOfFuel
deriving DecidableEq, Repr

/-- A non-null `char *` that the loaders return: a pointer to a string
literal, or the pointer that `dlerror()` returned, which points to the message
buffer `id` of the dynamic loader. -/
inductive CStr where
  | literal (text : String)
  | message (id : Nat)
deriving DecidableEq, Repr

/-- One call into the dynamic loader of the operating system. -/
inductive OsCall where
  | openLib (path : String)
  | resolve (handle : Option Nat) (name : String)
  | closeLib (handle : Option Nat)
deriving DecidableEq, Repr

/-- The immutable part of the environment.

* `file p` is what opening the path `p` gives: the handle of the module, or
  the diagnostic of the loader.  A module has one handle however often it is
  opened (both `dlopen` and `LoadLibrary` count references).
* `symbol h n` is what looking the name `n` up in the module `h` gives: the
  value of the symbol, or the diagnostic of the loader when there is no such
  symbol.  The value of a symbol that exists can be zero (`.ok none`).
* `descriptor_next f`, `find_decoder f` are the behaviours of the code at the
  function addresses `f`; `descriptor d`, `decoder c` are the records stored
  at the data addresses `d`, `c`. -/
structure Host where
  file : String → Except String Nat
  symbol : Option Nat → String → Except String (Option Nat)
  descriptor_next : Nat → Option Nat → Option Nat
  find_decoder : Nat → Int → Option Nat
  descriptor : Nat → AVCodecDescriptor
  decoder : Nat → AVCodec

/-- The pointer a symbol lookup hands back: the value of the symbol, `NULL`
when there is no such symbol. -/
def Host.address (host : Host) (handle : Option Nat) (name : String) : Option Nat :=
  match host.symbol handle name with
  | .ok a => a
  | .error _ => none

/-- The diagnostic a symbol lookup leaves: none when the symbol exists. -/
def Host.diagnostic (host : Host) (handle : Option Nat) (name : String) : Option String :=
  match host.symbol handle name with
  | .ok _ => none
  | .error msg => some msg

/-- The mutable part of the environment: `opened` holds one entry per
outstanding reference to a module; `dlerr` is the diagnostic of the last
`dl*` call that `dlerror()` has not handed out yet; `buffer` is the message
buffer that `dlerror()` handed out and that is still allocated, with its
identity and text; `allocs` counts the buffers handed out so far; `log` lists
the loader calls in the order they were made. -/
structure OsState where
  opened : List Nat
  dlerr : Option String
  buffer : Option (Nat × String)
  allocs : Nat
  log : List OsCall
deriving DecidableEq, Repr

/-- The text that can be read through an error pointer in the state `s`:
none when the pointer is to a message buffer that is no longer allocated. -/
def text (s : OsState) : CStr → Option String
  | .literal t => some t
  | .message id =>
    match s.buffer with
    | some (i, t) => if i = id then some t else none
    | none => none

/-- Has `handle` an outstanding reference, so that one can be released? -/
def releasable (s : OsState) (handle : Option Nat) : Bool :=
  match handle with
  | none => false
  | some h => decide (h ∈ s.opened)

/-- The reference list after releasing one reference of `handle`. -/
def release (s : OsState) (handle : Option Nat) : List Nat :=
  match handle with
  | none => s.opened
  | some h => s.opened.erase h

/-! ### glibc: `dlopen`, `dlsym`, `dlclose`, `dlerror`

Every `dl*` call first frees the message of the previous error, also when
`dlerror()` has handed it out already, and then records its own diagnostic,
if any.  `dlerror()` hands out the recorded diagnostic in a buffer that stays
allocated until the next call into the loader. -/

/-- The call `dlopen(path, RTLD_NOW)`. -/
def dlopen (host : Host) (s : OsState) (path : String) : Option Nat × OsState :=
  match host.file path with
  | .ok h =>
    (some h, { s with opened := h :: s.opened, dlerr := none, buffer := none,
                      log := s.log ++ [.openLib path] })
  | .error msg =>
    (none, { s with dlerr := some msg, buffer := none, log := s.log ++ [.openLib path] })

/-- The call `dlsym(handle, name)`: the value of the symbol, which can be
`NULL` without any error; `NULL` with a diagnostic when there is no such
symbol. -/
def dlsym (host : Host) (s : OsState) (handle : Option Nat) (name : String) :
    Option Nat × OsState :=
  (host.address handle name,
   { s with dlerr := host.diagnostic handle name, buffer := none,
            log := s.log ++ [.resolve handle name] })

/-- The call `dlclose(handle)`; the result is `0` on success.  The handle is
dereferenced: a `NULL` handle or a handle that is not open crashes. -/
def dlclose (s : OsState) (handle : Option Nat) : Except Fault (Int × OsState) :=
  match handle with
  | none => .error .nullDeref
  | some h =>
    if h ∈ s.opened then
      .ok (0, { s with opened := s.opened.erase h, dlerr := none, buffer := none,
                       log := s.log ++ [.closeLib handle] })
    else
      .error .invalidHandle

/-- The call `dlerror()`: a pointer to a fresh buffer with the recorded
diagnostic, or `NULL` when none is recorded. -/
def dlerror (s : OsState) : Option CStr × OsState :=
  match s.dlerr with
  | some msg =>
    (some (.message s.allocs),
     { s with dlerr := none, buffer := some (s.allocs, msg), allocs := s.allocs + 1 })
  | none => (none, { s with buffer := none })

/-! ### Windows: `LoadLibrary`, `GetProcAddress`, `FreeLibrary` -/

/-- The call `LoadLibrary(path)`: the module handle, or `NULL`. -/
def LoadLibrary (host : Host) (s : OsState) (path : String) : Option Nat × OsState :=
  match host.file path with
  | .ok h => (some h, { s with opened := h :: s.opened, log := s.log ++ [.openLib path] })
  | .error _ => (none, { s with log := s.log ++ [.openLib path] })

/-- The call `GetProcAddress(handle, name)`: the address, or `NULL`. -/
def GetProcAddress (host : Host) (s : OsState) (handle : Option Nat) (name : String) :
    Option Nat × OsState :=
  (host.address handle name, { s with log := s.log ++ [.resolve handle name] })

/-- The call `FreeLibrary(handle)`: `true` (non-zero) on success, `false` for
a handle without an outstanding reference. -/
def FreeLibrary (s : OsState) (handle : Option Nat) : Bool × OsState :=
  if releasable s handle then
    (true, { s with opened := release s handle, log := s.log ++ [.closeLib handle] })
  else
    (false, { s with log := s.log ++ [.closeLib handle] })

/-! ## The platform loaders -/

/-- What a loader operation leaves behind: the returned `char *` (`none` is
`NULL`, no error), the caller's struct and the operating-system state. -/
structure Outcome where
  error : Option CStr
  library : FFMPEG_Library
  os : OsState
deriving DecidableEq, Repr

namespace Linux

/-- The `error:` label of `load_ffmpeg_library` in `linux-ffmpeg.c`. -/
def load_error_exit (s : OsState) (library : FFMPEG_Library) (handle : Option Nat)
    (error : Option CStr) : Except Fault Outcome :=
  if handle ≠ none then
    match dlclose s handle with
    | .error fault => .error fault
    | .ok (_, s) => .ok { error := error, library := library, os := s }
  else
    .ok { error := error, library := library, os := s }

/-- The function `load_ffmpeg_library` of `linux-ffmpeg.c`. -/
def load_ffmpeg_library (host : Host) (s : OsState) (library : FFMPEG_Library)
    (library_path : String) : Except Fault Outcome :=
  let (handle, s) := dlopen host s library_path
  let (error, s) := dlerror s
  if error ≠ none then load_error_exit s library handle error else
  let (avcodec_descriptor_next, s) := dlsym host s handle "avcodec_descriptor_next"
  let (error, s) := dlerror s
  if error ≠ none then load_error_exit s library handle error else
  let (avcodec_find_decoder, s) := dlsym host s handle "avcodec_find_decoder"
  let (error, s) := dlerror s
  if error ≠ none then load_error_exit s library handle error else
  .ok { error := none,
        library := { handle := handle,
                     avcodec_descriptor_next := avcodec_descriptor_next,
                     avcodec_find_decoder := avcodec_find_decoder },
        os := s }

/-- The function `unload_ffmpeg_library` of `linux-ffmpeg.c`. -/
def unload_ffmpeg_library (s : OsState) (library : FFMPEG_Library) :
    Except Fault Outcome :=
  match dlclose s library.handle with
  | .error fault => .error fault
  | .ok (_, s) =>
    let (error, s) := dlerror s
    .ok { error := error, library := NULL_FFMPEG_LIBRARY, os := s }

end Linux

namespace Win

/-- The static `char *error_library_not_found` of `win-ffmpeg.c`. -/
def error_library_not_found : CStr := .literal "shared library not found"

/-- The static `char *error_function_not_found` of `win-ffmpeg.c`. -/
def error_function_not_found : CStr := .literal "function not found in shared library"

/-- The static `char *error_cannot_free_library` of `win-ffmpeg.c`. -/
def error_cannot_free_library : CStr := .literal "cannot free shared library"

/-- The `error:` label of `load_ffmpeg_library` in `win-ffmpeg.c`. -/
def load_error_exit (s : OsState) (library : FFMPEG_Library) (handle : Option Nat)
    (error : Option CStr) : Outcome :=
  if handle ≠ none then
    { error := error, library := library, os := (FreeLibrary s handle).2 }
  else
    { error := error, library := library, os := s }

/-- The function `load_ffmpeg_library` of `win-ffmpeg.c`. -/
def load_ffmpeg_library (host : Host) (s : OsState) (library : FFMPEG_Library)
    (library_path : String) : Outcome :=
  let (handle, s) := LoadLibrary host s library_path
  if handle = none then load_error_exit s library handle (some error_library_not_found) else
  let (av_codec_next, s) := GetProcAddress host s handle "avcodec_descriptor_next"
  if av_codec_next = none then
    load_error_exit s library handle (some error_function_not_found) else
  let (avcodec_find_decoder, s) := GetProcAddress host s handle "avcodec_find_decoder"
  if avcodec_find_decoder = none then
    load_error_exit s library handle (some error_function_not_found) else
  { error := none,
    library := { handle := handle,
                 avcodec_descriptor_next := av_codec_next,
                 avcodec_find_decoder := avcodec_find_decoder },
    os := s }

/-- The function `unload_ffmpeg_library` of `win-ffmpeg.c`; `&&` does not
call `FreeLibrary` on a null handle. -/
def unload_ffmpeg_library (s : OsState) (library : FFMPEG_Library) : Outcome :=
  if library.handle ≠ none then
    let (freed, s1) := FreeLibrary s library.handle
    if freed then
      { error := none, library := NULL_FFMPEG_LIBRARY, os := s1 }
    else
      { error := some error_cannot_free_library, library := library, os := s1 }
  else
    { error := some error_cannot_free_library, library := library, os := s }

end Win

/-- The two variants of the loader; one of them is linked into the module. -/
inductive Platform where
  | linux
  | windows
deriving DecidableEq, Repr

/-- The prototype `load_ffmpeg_library` of `ffmpeg.h`, as linked. -/
def load_ffmpeg_library (pf : Platform) (host : Host) (s : OsState)
    (library : FFMPEG_Library) (library_path : String) : Except Fault Outcome :=
  match pf with
  | .linux => Linux.load_ffmpeg_library host s library library_path
  | .windows => .ok (Win.load_ffmpeg_library host s library library_path)

/-- The prototype `unload_ffmpeg_library` of `ffmpeg.h`, as linked. -/
def unload_ffmpeg_library (pf : Platform) (s : OsState) (library : FFMPEG_Library) :
    Except Fault Outcome :=
  match pf with
  | .linux => Linux.unload_ffmpeg_library s library
  | .windows => .ok (Win.unload_ffmpeg_library s library)

/-! ## Sequences of loader calls on one struct -/

/-- One call a client makes on its `FFMPEG_Library`. -/
inductive Op where
  | load (library_path : String)
  | unload
deriving DecidableEq, Repr

/-- Perform one call; the returned error string is dropped. -/
def step (pf : Platform) (host : Host) (st : FFMPEG_Library × OsState) (op : Op) :
    Except Fault (FFMPEG_Library × OsState) :=
  match op with
  | .load library_path =>
    match load_ffmpeg_library pf host st.2 st.1 library_path with
    | .error fault => .error fault
    | .ok r => .ok (r.library, r.os)
  | .unload =>
    match unload_ffmpeg_library pf st.2 st.1 with
    | .error fault => .error fault
    | .ok r => .ok (r.library, r.os)

/-- Perform the calls from left to right, up to the first crash. -/
def run (pf : Platform) (host : Host) (st : FFMPEG_Library × OsState) :
    List Op → Except Fault (FFMPEG_Library × OsState)
  | [] => .ok st
  | op :: ops =>
    match step pf host st op with
    | .error fault => .error fault
    | .ok st1 => run pf host st1 ops

/-- All three fields are non-null. -/
def isLoaded (library : FFMPEG_Library) : Bool :=
  library.handle.isSome && library.avcodec_descriptor_next.isSome
    && library.avcodec_find_decoder.isSome

/-- All three fields are null. -/
def isEmpty (library : FFMPEG_Library) : Bool :=
  library.handle.isNone && library.avcodec_descriptor_next.isNone
    && library.avcodec_find_decoder.isNone

/-- The calls of `after` that were made since `before`. -/
def callsSince (before after : OsState) : List OsCall :=
  after.log.drop before.log.length

/-- Is the call a `dlclose` / `FreeLibrary`? -/
def OsCall.isClose : OsCall → Bool
  | .closeLib _ => true
  | _ => false

/-! ## The N-API entry point `codecs` (`ffmpeg.c`) -/

/-- A JavaScript value made by `napi_create_int32` or `napi_create_string_utf8`. -/
inductive JsValue where
  | int32 (n : Int)
  | string (s : String)
deriving DecidableEq, Repr

/-- A JavaScript object: its named properties in the order they were set. -/
abbrev JsObject := List (String × JsValue)

/-- What the N-API calls whose status `codecs` checks do in one invocation:
`cb_info_ok` says `napi_get_cb_info` returned `napi_ok`, `argc` is the number
of arguments it reports, `arg_string` is the C string that
`napi_get_value_string_utf8` leaves in `path` (`none` when its status is not
`napi_ok`), `create_array_ok` says `napi_create_array` returned `napi_ok`.
The calls whose status `codecs` ignores are taken to succeed. -/
structure NapiEnv where
  cb_info_ok : Bool
  argc : Nat
  arg_string : Option String
  create_array_ok : Bool
deriving DecidableEq, Repr

/-- A call that `codecs` makes into the loader, with the error it returned. -/
inductive LoaderCall where
  | load (error : Option CStr)
  | unload (error : Option CStr)
deriving DecidableEq, Repr

/-- What an invocation of `codecs` leaves behind: the returned `napi_value`
(`none` is `NULL`), the message given to `napi_throw_error`, the
operating-system state and the loader calls made. -/
structure CodecsResult where
  value : Option (List JsObject)
  thrown : Option String
  os : OsState
  calls : List LoaderCall
deriving DecidableEq, Repr

/-- The `error:` label of `codecs`: `napi_throw_error` reads the message
through the pointer. -/
def codecs_error_exit (error : Option CStr) (s : OsState) (calls : List LoaderCall) :
    Except Fault CodecsResult :=
  match error with
  | none => .ok { value := none, thrown := none, os := s, calls := calls }
  | some e =>
    match text s e with
    | none => .error .freedRead
    | some msg => .ok { value := none, thrown := some msg, os := s, calls := calls }

/-- The object built in the body of the loop of `codecs` for a decoder. -/
def codec_object (decoder : AVCodec) : JsObject :=
  let object : JsObject := []
  let object := object ++ [("id", JsValue.int32 decoder.id)]
  let object := object ++ [("name", JsValue.string decoder.name)]
  let object := object ++ [("longName", JsValue.string decoder.long_name)]
  object

/-- The `while (descriptor != NULL)` loop of `codecs`; `fuel` bounds the
number of times the body runs. -/
def codecs_loop (host : Host) (ffmpeg : FFMPEG_Library) :
    Nat → Option Nat → List JsObject → Except Fault (List JsObject)
  | _, none, codecs => .ok codecs
  | 0, some _, _ => .error .outOfFuel
  | fuel + 1, some descriptor, codecs =>
    match ffmpeg.avcodec_find_decoder, ffmpeg.avcodec_descriptor_next with
    | some find, some next =>
      let decoder := host.find_decoder find (host.descriptor descriptor).id
      let codecs :=
        match decoder with
        | some d => codecs ++ [codec_object (host.decoder d)]
        | none => codecs
      codecs_loop host ffmpeg fuel (host.descriptor_next next (some descriptor)) codecs
    | _, _ => .error .nullCall

/-- The function `codecs` of `ffmpeg.c`, linked with the loader of `pf`. -/
def codecs (pf : Platform) (host : Host) (env : NapiEnv) (fuel : Nat) (s : OsState) :
    Except Fault CodecsResult :=
  if env.cb_info_ok = false ∨ env.argc < 1 then
    codecs_error_exit (some (.literal "invalid arguments")) s []
  else
    match env.arg_string with
    | none => codecs_error_exit (some (.literal "invalid string argument")) s []
    | some path =>
      let ffmpeg := NULL_FFMPEG_LIBRARY
      match load_ffmpeg_library pf host s ffmpeg path with
      | .error fault => .error fault
      | .ok loaded =>
        if loaded.error ≠ none then
          codecs_error_exit loaded.error loaded.os [.load loaded.error]
        else if env.create_array_ok = false then
          codecs_error_exit (some (.literal "napi_create_array fail")) loaded.os
            [.load loaded.error]
        else
          match loaded.library.avcodec_descriptor_next with
          | none => .error .nullCall
          | some next =>
            match codecs_loop host loaded.library fuel
                (host.descriptor_next next none) [] with
            | .error fault => .error fault
            | .ok codecs =>
              match unload_ffmpeg_library pf loaded.os loaded.library with
              | .error fault => .error fault
              | .ok unloaded =>
                if unloaded.error ≠ none then
                  codecs_error_exit unloaded.error unloaded.os
                    [.load loaded.error, .unload unloaded.error]
                else
                  .ok { value := some codecs, thrown := none, os := unloaded.os,
                        calls := [.load loaded.error, .unload unloaded.error] }

/-- The iterator `next`, started after `prev`, returns the pointers `ds` one
after the other and then `NULL`. -/
def yields (next : Option Nat → Option Nat) : Option Nat → List Nat → Bool
  | prev, [] => next prev == none
  | prev, d :: ds => next prev == some d && yields next (some d) ds

/-- Has every successful load in the list an unload after it? -/
def everyLoadUnloaded : List LoaderCall → Bool
  | [] => true
  | .load none :: rest => rest.any (fun c => c matches .unload _) && everyLoadUnloaded rest
  | _ :: rest => everyLoadUnloaded rest

/-! ## The standalone lister (`electron-ffmpeg-codecs.c`) -/

/-- The registry of the ffmpeg library the program is linked against:
`av_codec_next` is the function of that name, `codec c` is the record stored
at the address `c`. -/
structure Registry where
  av_codec_next : Option Nat → Option Nat
  codec : Nat → AVCodec

/-- The conversion `%d` of `fprintf` for a C `int`. -/
def format_d (n : Int) : String :=
  match n with
  | .ofNat m => Nat.repr m
  | .negSucc m => "-" ++ Nat.repr (m + 1)

/-- The text that the format string of `output_json_entry` produces. -/
def json_entry (codec : AVCodec) : String :=
  "\x7b\"id\":" ++ format_d codec.id ++ ",\"name\":\"" ++ codec.name
    ++ "\",\"longName\":\"" ++ codec.long_name ++ "\"\x7d"

/-- The function `output_json_entry`: appends the entry to `stdout`. -/
def output_json_entry (reg : Registry) (stdout : String) (codec : Option Nat) :
    Except Fault String :=
  match codec with
  | none => .error .nullDeref
  | some c => .ok (stdout ++ json_entry (reg.codec c))

/-- The `while (1)` loop of `main`; `fuel` bounds the number of times the
body runs. -/
def main_loop (reg : Registry) : Nat → Option Nat → String → Except Fault String
  | 0, _, _ => .error .outOfFuel
  | fuel + 1, codec, stdout =>
    match output_json_entry reg stdout codec with
    | .error fault => .error fault
    | .ok stdout =>
      let codec := reg.av_codec_next codec
      if codec ≠ none then main_loop reg fuel codec (stdout ++ ",")
      else .ok stdout

/-- The function `main`: what is written to `stdout`, and the exit status.
The call `avcodec_register_all()` fills the registry that `av_codec_next`
walks, which is `reg` here. -/
def main (reg : Registry) (fuel : Nat) : Except Fault (String × Int) :=
  let codec := reg.av_codec_next none
  let stdout := "["
  match main_loop reg fuel codec stdout with
  | .error fault => .error fault
  | .ok stdout => .ok (stdout ++ "]\n", 0)

/-! ## What the claims expect of `codecs` and `main` -/

/-- The JSON array of the entries of `codecs`: `[`, the entries separated by
single commas, `]` and a newline. -/
def json_array (codecs : List AVCodec) : String :=
  "[" ++ String.intercalate "," (codecs.map json_entry) ++ "]\n"

/-! ## Sample environments -/

/-- The path of the sample library. -/
def samplePath : String := "/opt/theia/libffmpeg.so"

/-- A host with one library at `samplePath` (handle `1`) that exports
`avcodec_descriptor_next` (at `100`) when `hasNext` and `avcodec_find_decoder`
(at `200`) when `hasFind`; its registry has the single descriptor `h264`
(at `10`) with the matching decoder (at `20`). -/
def sampleHost (hasNext hasFind : Bool) : Host where
  file := fun p =>
    if p = samplePath then .ok 1 else .error "cannot open shared object file"
  symbol := fun h n =>
    if h = some 1 ∧ n = "avcodec_descriptor_next" ∧ hasNext = true then .ok (some 100)
    else if h = some 1 ∧ n = "avcodec_find_decoder" ∧ hasFind = true then .ok (some 200)
    else .error ("undefined symbol: " ++ n)
  descriptor_next := fun f prev =>
    if f = 100 ∧ prev = none then some 10 else none
  find_decoder := fun f id =>
    if f = 200 ∧ id = 27 then some 20 else none
  descriptor := fun _ => { id := 27, type := 0, name := "h264", long_name := "H.264 / AVC" }
  decoder := fun _ => { name := "h264", long_name := "H.264 / AVC", type := 0, id := 27 }

/-- The sample host, except that the library defines `avcodec_find_decoder`
as a symbol of value zero. -/
def zeroSymbolHost : Host :=
  { sampleHost true true with
    symbol := fun h n =>
      if h = some 1 ∧ n = "avcodec_descriptor_next" then .ok (some 100)
      else if h = some 1 ∧ n = "avcodec_find_decoder" then .ok none
      else .error ("undefined symbol: " ++ n) }

/-- An operating-system state with no library open and no message recorded. -/
def freshOs : OsState :=
  { opened := [], dlerr := none, buffer := none, allocs := 0, log := [] }

/-- A struct whose handle is no longer open (the module was released before). -/
def staleLibrary : FFMPEG_Library :=
  { handle := some 7, avcodec_descriptor_next := some 100, avcodec_find_decoder := some 200 }

/-- An invocation with one string argument in which every N-API call succeeds. -/
def sampleEnv : NapiEnv :=
  { cb_info_ok := true, argc := 1, arg_string := some samplePath, create_array_ok := true }

/-- The registry with the single codec `h264` (at `20`). -/
def sampleRegistry : Registry where
  av_codec_next := fun prev => if prev = none then some 20 else none
  codec := fun _ => { name := "h264", long_name := "H.264 / AVC", type := 0, id := 27 }

/-- The registry without any codec. -/
def emptyRegistry : Registry where
  av_codec_next := fun _ => none
  codec := fun _ => { name := "", long_name := "", type := 0, id := 0 }

/-! ## Case lemmas for the loaders -/

theorem Linux.linux_load_open_failed (host : Host) (s : OsState) (L : FFMPEG_Library)
    (p msg : String) (hfile : host.file p = .error msg) :
    Linux.load_ffmpeg_library host s L p =
      .ok { error := some (.message s.allocs), library := L,
            os := { opened := s.opened, dlerr := none, buffer := some (s.allocs, msg),
                    allocs := s.allocs + 1, log := s.log ++ [.openLib p] } } := by
  simp [Linux.load_ffmpeg_library, Linux.load_error_exit, dlopen, dlerror, hfile]

theorem Linux.linux_load_next_missing (host : Host) (s : OsState) (L : FFMPEG_Library)
    (p msg : String) (h : Nat) (hfile : host.file p = .ok h)
    (hnext : host.symbol (some h) "avcodec_descriptor_next" = .error msg) :
    Linux.load_ffmpeg_library host s L p =
      .ok { error := some (.message s.allocs), library := L,
            os := { opened := s.opened, dlerr := none, buffer := none,
                    allocs := s.allocs + 1,
                    log := s.log ++ [.openLib p,
                                     .resolve (some h) "avcodec_descriptor_next",
                                     .closeLib (some h)] } } := by
  simp [Linux.load_ffmpeg_library, Linux.load_error_exit, dlopen, dlerror, dlsym, dlclose,
    Host.address, Host.diagnostic, hfile, hnext]

theorem Linux.linux_load_find_missing (host : Host) (s : OsState) (L : FFMPEG_Library)
    (p msg : String) (h : Nat) (a : Option Nat) (hfile : host.file p = .ok h)
    (hnext : host.symbol (some h) "avcodec_descriptor_next" = .ok a)
    (hfind : host.symbol (some h) "avcodec_find_decoder" = .error msg) :
    Linux.load_ffmpeg_library host s L p =
      .ok { error := some (.message s.allocs), library := L,
            os := { opened := s.opened, dlerr := none, buffer := none,
                    allocs := s.allocs + 1,
                    log := s.log ++ [.openLib p,
                                     .resolve (some h) "avcodec_descriptor_next",
                                     .resolve (some h) "avcodec_find_decoder",
                                     .closeLib (some h)] } } := by
  simp [Linux.load_ffmpeg_library, Linux.load_error_exit, dlopen, dlerror, dlsym, dlclose,
    Host.address, Host.diagnostic, hfile, hnext, hfind]

theorem Linux.linux_load_ok (host : Host) (s : OsState) (L : FFMPEG_Library)
    (p : String) (h : Nat) (a b : Option Nat) (hfile : host.file p = .ok h)
    (hnext : host.symbol (some h) "avcodec_descriptor_next" = .ok a)
    (hfind : host.symbol (some h) "avcodec_find_decoder" = .ok b) :
    Linux.load_ffmpeg_library host s L p =
      .ok { error := none,
            library := { handle := some h, avcodec_descriptor_next := a,
                         avcodec_find_decoder := b },
            os := { opened := h :: s.opened, dlerr := none, buffer := none,
                    allocs := s.allocs,
                    log := s.log ++ [.openLib p,
                                     .resolve (some h) "avcodec_descriptor_next",
                                     .resolve (some h) "avcodec_find_decoder"] } } := by
  simp [Linux.load_ffmpeg_library, dlopen, dlerror, dlsym, Host.address, Host.diagnostic,
    hfile, hnext, hfind]

theorem Win.win_load_open_failed (host : Host) (s : OsState) (L : FFMPEG_Library)
    (p msg : String) (hfile : host.file p = .error msg) :
    Win.load_ffmpeg_library host s L p =
      { error := some Win.error_library_not_found, library := L,
        os := { s with log := s.log ++ [.openLib p] } } := by
  simp [Win.load_ffmpeg_library, Win.load_error_exit, LoadLibrary, hfile]

theorem Win.win_load_next_missing (host : Host) (s : OsState) (L : FFMPEG_Library)
    (p : String) (h : Nat) (hfile : host.file p = .ok h)
    (hnext : host.address (some h) "avcodec_descriptor_next" = none) :
    Win.load_ffmpeg_library host s L p =
      { error := some Win.error_function_not_found, library := L,
        os := { s with log := s.log ++ [.openLib p,
                                        .resolve (some h) "avcodec_descriptor_next",
                                        .closeLib (some h)] } } := by
  simp [Win.load_ffmpeg_library, Win.load_error_exit, LoadLibrary, GetProcAddress,
    FreeLibrary, releasable, release, hfile, hnext]

theorem Win.win_load_find_missing (host : Host) (s : OsState) (L : FFMPEG_Library)
    (p : String) (h a : Nat) (hfile : host.file p = .ok h)
    (hnext : host.address (some h) "avcodec_descriptor_next" = some a)
    (hfind : host.address (some h) "avcodec_find_decoder" = none) :
    Win.load_ffmpeg_library host s L p =
      { error := some Win.error_function_not_found, library := L,
        os := { s with log := s.log ++ [.openLib p,
                                        .resolve (some h) "avcodec_descriptor_next",
                                        .resolve (some h) "avcodec_find_decoder",
                                        .closeLib (some h)] } } := by
  simp [Win.load_ffmpeg_library, Win.load_error_exit, LoadLibrary, GetProcAddress,
    FreeLibrary, releasable, release, hfile, hnext, hfind]

theorem Win.win_load_ok (host : Host) (s : OsState) (L : FFMPEG_Library)
    (p : String) (h a b : Nat) (hfile : host.file p = .ok h)
    (hnext : host.address (some h) "avcodec_descriptor_next" = some a)
    (hfind : host.address (some h) "avcodec_find_decoder" = some b) :
    Win.load_ffmpeg_library host s L p =
      { error := none,
        library := { handle := some h, avcodec_descriptor_next := some a,
                     avcodec_find_decoder := some b },
        os := { s with opened := h :: s.opened,
                       log := s.log ++ [.openLib p,
                                        .resolve (some h) "avcodec_descriptor_next",
                                        .resolve (some h) "avcodec_find_decoder"] } } := by
  simp [Win.load_ffmpeg_library, LoadLibrary, GetProcAddress, hfile, hnext, hfind]

/-- Every call of `load_ffmpeg_library` returns; it either fails and leaves
the struct as it was, or succeeds on an opened library, with all three fields
non-null unless, on Linux, one of the two symbols has the value zero. -/
theorem load_cases (pf : Platform) (host : Host) (s : OsState) (L : FFMPEG_Library)
    (p : String) :
    ∃ r, load_ffmpeg_library pf host s L p = .ok r ∧
      ((r.error ≠ none ∧ r.library = L) ∨
       (r.error = none ∧ ∃ h, host.file p = .ok h ∧ r.library.handle = some h ∧
          r.os.opened = h :: s.opened ∧
          (isLoaded r.library = true ∨
            (pf = .linux ∧
              (host.symbol (some h) "avcodec_descriptor_next" = .ok none ∨
               host.symbol (some h) "avcodec_find_decoder" = .ok none))))) := by
  have hwin : load_ffmpeg_library .windows host s L p
      = .ok (Win.load_ffmpeg_library host s L p) := rfl
  rcases hfile : host.file p with msg | h
  · cases pf
    · exact ⟨_, Linux.linux_load_open_failed host s L p msg hfile, Or.inl (by simp)⟩
    · rw [hwin, Win.win_load_open_failed host s L p msg hfile]
      exact ⟨_, rfl, Or.inl (by simp)⟩
  · cases pf
    · rcases hnext : host.symbol (some h) "avcodec_descriptor_next" with msg | a
      · exact ⟨_, Linux.linux_load_next_missing host s L p msg h hfile hnext,
          Or.inl (by simp)⟩
      · rcases hfind : host.symbol (some h) "avcodec_find_decoder" with msg | b
        · exact ⟨_, Linux.linux_load_find_missing host s L p msg h a hfile hnext hfind,
            Or.inl (by simp)⟩
        · refine ⟨_, Linux.linux_load_ok host s L p h a b hfile hnext hfind,
            Or.inr ⟨rfl, h, rfl, rfl, rfl, ?_⟩⟩
          cases a with
          | none => exact Or.inr ⟨rfl, Or.inl hnext⟩
          | some a =>
            cases b with
            | none => exact Or.inr ⟨rfl, Or.inr hfind⟩
            | some b => exact Or.inl (by simp [isLoaded])
    · rcases hnext : host.address (some h) "avcodec_descriptor_next" with _ | a
      · rw [hwin, Win.win_load_next_missing host s L p h hfile hnext]
        exact ⟨_, rfl, Or.inl (by simp)⟩
      · rcases hfind : host.address (some h) "avcodec_find_decoder" with _ | b
        · rw [hwin, Win.win_load_find_missing host s L p h a hfile hnext hfind]
          exact ⟨_, rfl, Or.inl (by simp)⟩
        · rw [hwin, Win.win_load_ok host s L p h a b hfile hnext hfind]
          exact ⟨_, rfl, Or.inr ⟨rfl, h, rfl, rfl, rfl, Or.inl (by simp [isLoaded])⟩⟩

/-- After the Windows `unload_ffmpeg_library` the struct is
`NULL_FFMPEG_LIBRARY` or untouched. -/
theorem Win.win_unload_cases (s : OsState) (L : FFMPEG_Library) :
    (Win.unload_ffmpeg_library s L).library = NULL_FFMPEG_LIBRARY ∨
    (Win.unload_ffmpeg_library s L).library = L := by
  simp only [Win.unload_ffmpeg_library]
  split
  · split
    · left; rfl
    · right; rfl
  · right; rfl

/-- On Windows every sequence of calls runs to its end and keeps the
all-or-nothing shape of the struct: the Windows loader tests the pointers it
stores. -/
theorem win_run_keeps_shape (host : Host) (ops : List Op) :
    ∀ st : FFMPEG_Library × OsState, (isLoaded st.1 || isEmpty st.1) = true →
      ∃ st1, run .windows host st ops = .ok st1 ∧
        (isLoaded st1.1 || isEmpty st1.1) = true := by
  induction ops with
  | nil => intro st hst; exact ⟨st, rfl, hst⟩
  | cons op ops ih =>
    intro st hst
    cases op with
    | load p =>
      obtain ⟨r, hr, hcase⟩ := load_cases .windows host st.2 st.1 p
      have hshape : (isLoaded r.library || isEmpty r.library) = true := by
        rcases hcase with ⟨_, hL⟩ | ⟨_, h, _, _, _, hl | ⟨hpf, _⟩⟩
        · rw [hL]; exact hst
        · simp [hl]
        · cases hpf
      obtain ⟨st1, hrun, hst1⟩ := ih (r.library, r.os) hshape
      exact ⟨st1, by simp [run, step, hr, hrun], hst1⟩
    | unload =>
      have hshape : (isLoaded (Win.unload_ffmpeg_library st.2 st.1).library
          || isEmpty (Win.unload_ffmpeg_library st.2 st.1).library) = true := by
        rcases Win.win_unload_cases st.2 st.1 with hL | hL
        · rw [hL]; rfl
        · rw [hL]; exact hst
      obtain ⟨st1, hrun, hst1⟩ := ih ((Win.unload_ffmpeg_library st.2 st.1).library,
        (Win.unload_ffmpeg_library st.2 st.1).os) hshape
      exact ⟨st1, by simp [run, step, unload_ffmpeg_library, hrun], hst1⟩

/-! ## The claims about the loaders -/

/-- C1: when the library at the path opens (handle `h`) but one of the two
required symbols cannot be resolved, `load_ffmpeg_library` of either platform
returns, with a non-null error; the only close call it makes is one close of
`h`, made as its last loader call, and the open library references are those
from before the call. -/
theorem load_symbol_failure_closes_handle (pf : Platform) (host : Host) (s : OsState)
    (L : FFMPEG_Library) (p : String) (h : Nat)
    (hopen : host.file p = .ok h)
    (hmiss : (∃ m, host.symbol (some h) "avcodec_descriptor_next" = .error m) ∨
             (∃ m, host.symbol (some h) "avcodec_find_decoder" = .error m)) :
    ∃ r, load_ffmpeg_library pf host s L p = .ok r ∧
      r.error ≠ none ∧
      (callsSince s r.os).filter OsCall.isClose = [.closeLib (some h)] ∧
      (callsSince s r.os).getLast? = some (.closeLib (some h)) ∧
      r.os.opened = s.opened := by
  have hwin : load_ffmpeg_library .windows host s L p
      = .ok (Win.load_ffmpeg_library host s L p) := rfl
  cases pf
  · rcases hnext : host.symbol (some h) "avcodec_descriptor_next" with msg | a
    · exact ⟨_, Linux.linux_load_next_missing host s L p msg h hopen hnext,
        by simp [callsSince, OsCall.isClose]⟩
    · rcases hmiss with ⟨m, hm⟩ | ⟨m, hm⟩
      · rw [hnext] at hm; cases hm
      · exact ⟨_, Linux.linux_load_find_missing host s L p m h a hopen hnext hm,
          by simp [callsSince, OsCall.isClose]⟩
  · rcases hnext : host.address (some h) "avcodec_descriptor_next" with _ | a
    · rw [hwin, Win.win_load_next_missing host s L p h hopen hnext]
      exact ⟨_, rfl, by simp [callsSince, OsCall.isClose]⟩
    · have hfind : host.address (some h) "avcodec_find_decoder" = none := by
        rcases hmiss with ⟨m, hm⟩ | ⟨m, hm⟩
        · simp [Host.address, hm] at hnext
        · simp [Host.address, hm]
      rw [hwin, Win.win_load_find_missing host s L p h a hopen hnext hfind]
      exact ⟨_, rfl, by simp [callsSince, OsCall.isClose]⟩

/-- C1, on the sample library without `avcodec_find_decoder`, Linux variant. -/
theorem load_symbol_failure_closes_handle_witness :
    ∃ r, load_ffmpeg_library .linux (sampleHost true false) freshOs NULL_FFMPEG_LIBRARY
        samplePath = .ok r ∧
      r.error ≠ none ∧
      (callsSince freshOs r.os).filter OsCall.isClose = [.closeLib (some 1)] ∧
      (callsSince freshOs r.os).getLast? = some (.closeLib (some 1)) ∧
      r.os.opened = freshOs.opened :=
  load_symbol_failure_closes_handle .linux (sampleHost true false) freshOs
    NULL_FFMPEG_LIBRARY samplePath 1 rfl
    (Or.inr ⟨"undefined symbol: avcodec_find_decoder", rfl⟩)

/-- C2 fails: for a struct whose handle has no outstanding reference, the
Windows `FreeLibrary` reports failure and `unload_ffmpeg_library` returns
"cannot free shared library" with the struct left populated, not reset to
`NULL_FFMPEG_LIBRARY`; the Linux `unload_ffmpeg_library` passes the same handle
to `dlclose` and does not return, as it does not for the null handle of
`NULL_FFMPEG_LIBRARY`. -/
theorem win_unload_failure_keeps_struct :
    (FreeLibrary freshOs staleLibrary.handle).1 = false ∧
    (unload_ffmpeg_library .windows freshOs staleLibrary).map
        (fun r => (r.error, r.library))
      = .ok (some (.literal "cannot free shared library"), staleLibrary) ∧
    staleLibrary ≠ NULL_FFMPEG_LIBRARY ∧
    unload_ffmpeg_library .linux freshOs staleLibrary = .error .invalidHandle ∧
    unload_ffmpeg_library .linux freshOs NULL_FFMPEG_LIBRARY = .error .nullDeref :=
  ⟨by decide, rfl, by decide, rfl, rfl⟩

/-- C3 fails on Linux: for a library that defines `avcodec_find_decoder` as a
symbol of value zero, `dlsym` returns `NULL` and `dlerror()` returns `NULL`, so
`load_ffmpeg_library` returns `NULL` (success) and leaves a struct with a
non-null handle and a null function pointer, neither Loaded nor Empty; and an
unload on `NULL_FFMPEG_LIBRARY` does not return. -/
theorem linux_load_zero_symbol_breaks_shape :
    (dlsym zeroSymbolHost freshOs (some 1) "avcodec_find_decoder").1 = none ∧
    (dlerror (dlsym zeroSymbolHost freshOs (some 1) "avcodec_find_decoder").2).1 = none ∧
    (load_ffmpeg_library .linux zeroSymbolHost freshOs NULL_FFMPEG_LIBRARY samplePath).map
        (fun r => (r.error, r.library, isLoaded r.library, isEmpty r.library))
      = .ok (none, { handle := some 1, avcodec_descriptor_next := some 100,
                     avcodec_find_decoder := none }, false, false) ∧
    (run .linux zeroSymbolHost (NULL_FFMPEG_LIBRARY, freshOs) [.load samplePath]).map
        (fun st => isLoaded st.1 || isEmpty st.1)
      = .ok false ∧
    (run .linux zeroSymbolHost (NULL_FFMPEG_LIBRARY, freshOs) [.unload]).map
        (fun st => st.1)
      = .error .nullDeref :=
  ⟨rfl, rfl, rfl, rfl, rfl⟩

/-- C4: `load_ffmpeg_library` of either platform returns, and whenever the
error it returns is non-null the caller's struct is field for field what it
was before the call. -/
theorem failed_load_keeps_struct (pf : Platform) (host : Host) (s : OsState)
    (L : FFMPEG_Library) (p : String) :
    ∃ r, load_ffmpeg_library pf host s L p = .ok r ∧
      (r.error ≠ none → r.library = L) := by
  obtain ⟨r, hr, hcase⟩ := load_cases pf host s L p
  refine ⟨r, hr, fun hfail => ?_⟩
  rcases hcase with ⟨_, hL⟩ | ⟨hok, _⟩
  · exact hL
  · exact absurd hok hfail

/-- C4 on the sample library without `avcodec_descriptor_next`: the load
fails and an Empty struct stays Empty. -/
theorem failed_load_keeps_struct_witness :
    ∃ r, load_ffmpeg_library .linux (sampleHost false true) freshOs NULL_FFMPEG_LIBRARY
        samplePath = .ok r ∧
      r.error ≠ none ∧ r.library = NULL_FFMPEG_LIBRARY :=
  let ⟨r, hr, hkeep⟩ := failed_load_keeps_struct .linux (sampleHost false true) freshOs
    NULL_FFMPEG_LIBRARY samplePath
  have hfail : r.error ≠ none := by
    have hrun := Linux.linux_load_next_missing (sampleHost false true) freshOs
      NULL_FFMPEG_LIBRARY samplePath "undefined symbol: avcodec_descriptor_next" 1 rfl rfl
    rw [show load_ffmpeg_library .linux (sampleHost false true) freshOs NULL_FFMPEG_LIBRARY
      samplePath = Linux.load_ffmpeg_library (sampleHost false true) freshOs
        NULL_FFMPEG_LIBRARY samplePath from rfl, hrun] at hr
    cases hr
    simp
  ⟨r, hr, hfail, hkeep hfail⟩

/-- C7: when the OS cannot open the path, the Linux loader returns the
pointer that `dlerror()` returned, through which the diagnostic of `dlopen`
is read unchanged at the return, the Windows loader returns
"shared library not found", and on either platform the one loader call made is
the open attempt (no symbol resolution, no close) and the open library
references are unchanged. -/
theorem load_not_found (host : Host) (s : OsState) (L : FFMPEG_Library) (p msg : String)
    (hfile : host.file p = .error msg) :
    (∃ r q, load_ffmpeg_library .linux host s L p = .ok r ∧
      (dlerror (dlopen host s p).2).1 = some q ∧
      r.error = some q ∧
      text r.os q = some msg ∧
      callsSince s r.os = [.openLib p] ∧
      r.os.opened = s.opened) ∧
    (∃ r, load_ffmpeg_library .windows host s L p = .ok r ∧
      r.error = some (.literal "shared library not found") ∧
      callsSince s r.os = [.openLib p] ∧
      r.os.opened = s.opened) := by
  constructor
  · exact ⟨_, .message s.allocs, Linux.linux_load_open_failed host s L p msg hfile,
      by simp [dlerror, dlopen, hfile], rfl, by simp [text], by simp [callsSince], rfl⟩
  · refine ⟨_, rfl, ?_⟩
    rw [Win.win_load_open_failed host s L p msg hfile]
    exact ⟨rfl, by simp [callsSince], rfl⟩

/-- C7 on a path the sample host cannot open, Windows variant. -/
theorem load_not_found_witness :
    ∃ r, load_ffmpeg_library .windows (sampleHost true true) freshOs NULL_FFMPEG_LIBRARY
        "/missing.dll" = .ok r ∧
      r.error = some (.literal "shared library not found") ∧
      callsSince freshOs r.os = [.openLib "/missing.dll"] ∧
      r.os.opened = freshOs.opened :=
  (load_not_found (sampleHost true true) freshOs NULL_FFMPEG_LIBRARY "/missing.dll"
    "cannot open shared object file" rfl).2

/-- C8, as the Windows code has it: for a library in which
`avcodec_descriptor_next` cannot be resolved and a library in which only
`avcodec_find_decoder` cannot be resolved, the Windows loader returns the same
string "function not found in shared library", which differs from the
library-not-found string. -/
theorem symbol_missing_errors (host1 host2 : Host) (s1 s2 : OsState)
    (L1 L2 : FFMPEG_Library) (p1 p2 : String) (h1 h2 a : Nat)
    (hopen1 : host1.file p1 = .ok h1)
    (hnext1 : host1.address (some h1) "avcodec_descriptor_next" = none)
    (hopen2 : host2.file p2 = .ok h2)
    (hnext2 : host2.address (some h2) "avcodec_descriptor_next" = some a)
    (hfind2 : host2.address (some h2) "avcodec_find_decoder" = none) :
    ∃ r1 r2, load_ffmpeg_library .windows host1 s1 L1 p1 = .ok r1 ∧
      load_ffmpeg_library .windows host2 s2 L2 p2 = .ok r2 ∧
      r1.error = some (.literal "function not found in shared library") ∧
      r2.error = some (.literal "function not found in shared library") ∧
      Win.error_function_not_found ≠ Win.error_library_not_found := by
  refine ⟨_, _, rfl, rfl, ?_, ?_, by decide⟩
  · rw [Win.win_load_next_missing host1 s1 L1 p1 h1 hopen1 hnext1]; rfl
  · rw [Win.win_load_find_missing host2 s2 L2 p2 h2 a hopen2 hnext2 hfind2]; rfl

/-- C8 on the two defective sample libraries. -/
theorem symbol_missing_errors_witness :
    ∃ r1 r2, load_ffmpeg_library .windows (sampleHost false true) freshOs
        NULL_FFMPEG_LIBRARY samplePath = .ok r1 ∧
      load_ffmpeg_library .windows (sampleHost true false) freshOs
        NULL_FFMPEG_LIBRARY samplePath = .ok r2 ∧
      r1.error = some (.literal "function not found in shared library") ∧
      r2.error = some (.literal "function not found in shared library") ∧
      Win.error_function_not_found ≠ Win.error_library_not_found :=
  symbol_missing_errors (sampleHost false true) (sampleHost true false) freshOs freshOs
    NULL_FFMPEG_LIBRARY NULL_FFMPEG_LIBRARY samplePath samplePath 1 1 100
    rfl rfl rfl rfl rfl

/-- C8 fails on Windows: the error for a library without
`avcodec_descriptor_next` and the error for a library that lacks only
`avcodec_find_decoder` are the same non-null string. -/
theorem win_symbol_errors_coincide :
    (load_ffmpeg_library .windows (sampleHost false true) freshOs NULL_FFMPEG_LIBRARY
      samplePath).map (fun r => r.error)
      = .ok (some (.literal "function not found in shared library")) ∧
    (load_ffmpeg_library .windows (sampleHost false true) freshOs NULL_FFMPEG_LIBRARY
      samplePath).map (fun r => r.error) =
    (load_ffmpeg_library .windows (sampleHost true false) freshOs NULL_FFMPEG_LIBRARY
      samplePath).map (fun r => r.error) :=
  ⟨rfl, rfl⟩

/-- On Linux the error returned for a missing symbol is the pointer that
`dlerror()` returned before the `dlclose` of the error label freed its buffer:
at the return no text can be read through it, and `codecs`, which hands it to
`napi_throw_error`, reads freed memory. -/
theorem linux_symbol_error_dangles :
    (load_ffmpeg_library .linux (sampleHost false true) freshOs NULL_FFMPEG_LIBRARY
      samplePath).map (fun r => (r.error, r.error.bind (text r.os)))
      = .ok (some (.message 0), none) ∧
    codecs .linux (sampleHost false true) sampleEnv 1 freshOs = .error .freedRead :=
  ⟨rfl, rfl⟩

/-! ## The claims about `codecs` and `main` -/

/-- C9 fails: on the sample library, when `napi_create_array` fails after the
load succeeded, `codecs` of either platform returns `NULL` with
"napi_create_array fail" thrown, having made one successful load and no
unload; the library stays open and no close call was made. -/
theorem codecs_leaks_on_array_failure :
    ∀ pf : Platform,
      (codecs pf (sampleHost true true) { sampleEnv with create_array_ok := false } 1
        freshOs).map (fun r => (r.value, r.thrown, r.calls, r.os.opened,
          r.os.log.filter OsCall.isClose, everyLoadUnloaded r.calls))
      = .ok (none, some "napi_create_array fail", [.load none], [1], [], false) := by
  intro pf
  cases pf <;> rfl

/-- The helper of `String.intercalate` carries a prefix of its accumulator
along. -/
theorem intercalate_go_append (x sep : String) :
    ∀ (rest : List String) (y : String),
      String.intercalate.go (x ++ y) sep rest = x ++ String.intercalate.go y sep rest := by
  intro rest
  induction rest with
  | nil => intro y; simp [String.intercalate.go]
  | cons e rest ih =>
    intro y
    simp only [String.intercalate.go]
    rw [← ih]
    simp [String.append_assoc]

/-- The loop of `main`, entered at a codec, writes the entries of the codecs
from there on, separated by commas. -/
theorem main_loop_yields (reg : Registry) :
    ∀ (cs : List Nat) (c : Nat) (fuel : Nat) (out : String),
      yields reg.av_codec_next (some c) cs = true → cs.length + 1 ≤ fuel →
      main_loop reg fuel (some c) out
        = .ok (String.intercalate.go (out ++ json_entry (reg.codec c)) ","
            (cs.map fun d => json_entry (reg.codec d))) := by
  intro cs
  induction cs with
  | nil =>
    intro c fuel out hy hfuel
    simp only [yields, beq_iff_eq] at hy
    cases fuel with
    | zero => simp at hfuel
    | succ fuel => simp [main_loop, output_json_entry, hy, String.intercalate.go]
  | cons d cs ih =>
    intro c fuel out hy hfuel
    simp only [yields, Bool.and_eq_true, beq_iff_eq] at hy
    obtain ⟨hd, hrest⟩ := hy
    cases fuel with
    | zero => simp at hfuel
    | succ fuel =>
      have hlen : cs.length + 1 ≤ fuel := by simpa using hfuel
      simp only [main_loop, output_json_entry, hd]
      simp only [ne_eq, reduceCtorEq, not_false_eq_true, if_true]
      rw [ih d fuel _ hrest hlen]
      simp [String.intercalate.go]

/-- The part of C10 that holds: for every registry of at least one codec,
`c, cs` being the pointers that `av_codec_next` returns, `main` terminates
(for every step bound of at least their number) with status `0` and has
written `[`, the entries of the codecs in registry order separated by single
commas, and `]` with a newline. -/
theorem main_writes_json_array (reg : Registry) (c : Nat) (cs : List Nat) (fuel : Nat)
    (hiter : yields reg.av_codec_next none (c :: cs) = true)
    (hfuel : (c :: cs).length ≤ fuel) :
    main reg fuel = .ok (json_array ((c :: cs).map reg.codec), 0) := by
  simp only [yields, Bool.and_eq_true, beq_iff_eq] at hiter
  obtain ⟨hc, hrest⟩ := hiter
  have hlen : cs.length + 1 ≤ fuel := by simpa using hfuel
  simp only [main, hc, main_loop_yields reg cs c fuel "[" hrest hlen, json_array,
    List.map_cons, List.map_map, String.intercalate, intercalate_go_append]
  rfl

/-- The registry with the single codec `h264` gives the array of one entry. -/
theorem main_writes_json_array_witness :
    main sampleRegistry 1
      = .ok ("[\x7b\"id\":27,\"name\":\"h264\",\"longName\":\"H.264 / AVC\"\x7d]\n", 0) :=
  main_writes_json_array sampleRegistry 20 [] 1 (by decide) (by decide)

/-- C10 fails for the empty registry: `av_codec_next(NULL)` returns `NULL`,
`output_json_entry` dereferences it, and no step bound makes `main` write
`[]` with a newline. -/
theorem main_empty_registry_faults :
    yields emptyRegistry.av_codec_next none [] = true ∧
    main emptyRegistry 1 = .error .nullDeref ∧
    ¬ ∃ fuel, main emptyRegistry fuel = .ok (json_array ([].map emptyRegistry.codec), 0) := by
  refine ⟨by decide, rfl, ?_⟩
  rintro ⟨fuel, hmain⟩
  cases fuel <;> simp [main, main_loop, output_json_entry, emptyRegistry] at hmain

end Ffmpeg
